import Mathlib

/-!
Verification of the Parcel Feasibility Pipeline
(`backend/app` — constraints engine, risk engine, yield engine,
LEP rules, CDC/DA pathway evaluators, polygon operations, pipeline runner).

The Python sources are shallowly embedded below: dictionaries become
structures, floats of measurement inputs become rationals (`ℚ`), the
real-valued regularity computation is embedded over `ℝ`, and each
function is translated clause by clause from its source.
-/

namespace PropertyDev

/-- Configuration settings, from `backend/app/config/settings.py`
(dataclass `Settings`): constraint weights, CDC thresholds, minimum lot
requirements, FSR thresholds and unit sizes.  Only the fields consumed by
the embedded functions are carried. -/
structure Settings where
  BUSHFIRE_WEIGHT : ℕ := 3
  FLOOD_WEIGHT : ℕ := 3
  HERITAGE_WEIGHT : ℕ := 4
  GEOTECH_WEIGHT : ℕ := 2
  BIODIVERSITY_WEIGHT : ℕ := 1
  MISC_WEIGHT : ℕ := 1
  CDC_MAX_SLOPE_PERCENT : ℚ := 20
  MIN_LOT_AREA_DUAL_OCC_SQM : ℚ := 600
  MIN_FRONTAGE_DUAL_OCC_M : ℚ := 15
  MIN_FSR_TERRACE : ℚ := 7/10
  MIN_FSR_MULTI_DWELLING : ℚ := 7/10
  AVERAGE_UNIT_SIZE_TOWNHOUSE_SQM : ℚ := 100
  deriving Repr, DecidableEq

/-- The singleton returned by `get_settings()` with the dataclass defaults. -/
def defaultSettings : Settings := {}

/-- The constraint-flag record produced by `evaluate_constraints`
(`backend/app/analysis/constraints_engine.py`); the `bushfire_category`
value is the category text (empty when absent, matching
`constraints.get("bushfire_category", "")`). -/
structure Constraints where
  bushfire_prone : Bool
  bushfire_category : String
  flood_prone : Bool
  acid_sulfate_soil_class : String
  heritage_item : Bool
  heritage_conservation_area : Bool
  foreshore_building_line : Bool
  riparian_buffer : Bool
  biodiversity : Bool
  geotech_landslip_risk : String
  other_overlays : List String
  deriving Repr, DecidableEq

/-- The score→rating chain of `compute_constraint_severity`
(`constraints_engine.py` lines 104–114): `"None"` at 0, `"Low"` up to 3,
`"Medium"` up to 7, `"High"` up to 12, `"Red-Flag"` above. -/
def constraintRatingOfScore (total_score : ℕ) : String :=
  if total_score = 0 then "None"
  else if total_score ≤ 3 then "Low"
  else if total_score ≤ 7 then "Medium"
  else if total_score ≤ 12 then "High"
  else "Red-Flag"

/-- The score→rating chain of `compute_risk_rating`
(`risk_engine.py` lines 53–63), textually the same threshold table as
`constraintRatingOfScore`. -/
def riskRatingOfScore (total_score : ℕ) : String :=
  if total_score = 0 then "None"
  else if total_score ≤ 3 then "Low"
  else if total_score ≤ 7 then "Medium"
  else if total_score ≤ 12 then "High"
  else "Red-Flag"

/-- Output record of `compute_constraint_severity`. -/
structure SeverityResult where
  bushfire_severity : ℕ
  flood_severity : ℕ
  heritage_severity : ℕ
  geotech_severity : ℕ
  biodiversity_severity : ℕ
  total_score : ℕ
  rating : String
  deriving Repr, DecidableEq

/-- `compute_constraint_severity` (`constraints_engine.py` lines 50–123):
per-category severities on a 0–3 scale (biodiversity 0/2, misc = overlay
count), weighted total, and the 5-tier rating. -/
def compute_constraint_severity (settings : Settings) (c : Constraints) :
    SeverityResult :=
  let bushfire_severity : ℕ :=
    if c.bushfire_prone then
      if c.bushfire_category.containsSubstr "Category 1"
          || c.bushfire_category.containsSubstr "Vegetation Category 1" then 3
      else if c.bushfire_category.containsSubstr "Category 2" then 2
      else 1
    else 0
  let flood_severity : ℕ := if c.flood_prone then 3 else 0
  let heritage_severity : ℕ :=
    if c.heritage_item then 3
    else if c.heritage_conservation_area then 2
    else 0
  let geotech_severity : ℕ :=
    if c.geotech_landslip_risk = "Very High" then 3
    else if c.geotech_landslip_risk = "High" then 2
    else if c.geotech_landslip_risk = "Moderate" then 1
    else 0
  let biodiversity_severity : ℕ := if c.biodiversity then 2 else 0
  let misc_severity : ℕ := c.other_overlays.length
  let total_score : ℕ :=
    settings.BUSHFIRE_WEIGHT * bushfire_severity +
    settings.FLOOD_WEIGHT * flood_severity +
    settings.HERITAGE_WEIGHT * heritage_severity +
    settings.GEOTECH_WEIGHT * geotech_severity +
    settings.BIODIVERSITY_WEIGHT * biodiversity_severity +
    settings.MISC_WEIGHT * misc_severity
  { bushfire_severity := bushfire_severity
    flood_severity := flood_severity
    heritage_severity := heritage_severity
    geotech_severity := geotech_severity
    biodiversity_severity := biodiversity_severity
    total_score := total_score
    rating := constraintRatingOfScore total_score }

/-- Slope metrics record consumed by the evaluators
(`slope_data` dictionary). -/
structure SlopeData where
  mean_gradient_percent : ℚ
  falls_to_street : Bool
  deriving Repr, DecidableEq

/-- Geometry record consumed by the evaluators (`geometry_data`
dictionary): only the fields the embedded functions read. -/
structure GeometryData where
  frontage_m : ℚ
  regularity_index : ℚ
  is_corner_lot : Bool
  deriving Repr, DecidableEq

/-- `compute_risk_rating` (`risk_engine.py` lines 8–65): constraint total
score plus slope and regularity penalties, mapped through the 5-tier
threshold table. -/
def compute_risk_rating (constraint_severity : SeverityResult)
    (slope_data : SlopeData) (geometry_data : GeometryData) : String :=
  let base_score : ℕ := constraint_severity.total_score
  let geometry_score : ℕ :=
    (if slope_data.mean_gradient_percent > 25 then 3
     else if slope_data.mean_gradient_percent > 15 then 2
     else 0) +
    (if geometry_data.regularity_index < 3/4 then 1 else 0)
  let total_score : ℕ := base_score + geometry_score
  riskRatingOfScore total_score

/-- Parcel record consumed by the evaluators (`parcel_data` dictionary);
only the field the embedded functions read. -/
structure ParcelData where
  area_sqm : ℚ
  deriving Repr, DecidableEq

/-- The blocking reasons appended by `evaluate_cdc_potential`
(`cdc_low_rise.py` lines 34–74), one constructor per append site; the
formatted message text carries no further branching and is elided. -/
inductive BlockReason where
  | bushfire
  | flood
  | heritageItem
  | heritageConservationArea
  | foreshoreBuildingLine
  | riparianBuffer
  | insufficientArea
  | insufficientFrontage
  | slopeTooSteep
  deriving Repr, DecidableEq

/-- Output record of `evaluate_cdc_potential`. -/
structure CdcResult where
  is_potentially_cdc_compliant : Bool
  likely_pathway : String
  blocking_constraints : List BlockReason
  deriving Repr, DecidableEq

/-- `evaluate_cdc_potential` (`cdc_low_rise.py` lines 8–88): blocking
reasons accumulated in the source's check order; eligible iff the list is
empty; pathway label from eligibility. -/
def evaluate_cdc_potential (settings : Settings) (parcel_data : ParcelData)
    (geometry_data : GeometryData) (c : Constraints)
    (slope_data : SlopeData) : CdcResult :=
  let blocking_constraints : List BlockReason :=
    (if c.bushfire_prone then [.bushfire] else []) ++
    (if c.flood_prone then [.flood] else []) ++
    (if c.heritage_item then [.heritageItem] else []) ++
    (if c.heritage_conservation_area then [.heritageConservationArea] else []) ++
    (if c.foreshore_building_line then [.foreshoreBuildingLine] else []) ++
    (if c.riparian_buffer then [.riparianBuffer] else []) ++
    (if parcel_data.area_sqm < settings.MIN_LOT_AREA_DUAL_OCC_SQM then
      [.insufficientArea] else []) ++
    (if geometry_data.frontage_m < settings.MIN_FRONTAGE_DUAL_OCC_M then
      [.insufficientFrontage] else []) ++
    (if slope_data.mean_gradient_percent > settings.CDC_MAX_SLOPE_PERCENT then
      [.slopeTooSteep] else [])
  let is_potentially_cdc_compliant : Bool := blocking_constraints.length = 0
  let likely_pathway : String :=
    if is_potentially_cdc_compliant then "CDC Possible" else "DA Only"
  { is_potentially_cdc_compliant := is_potentially_cdc_compliant
    likely_pathway := likely_pathway
    blocking_constraints := blocking_constraints }

/-- First-occurrence deduplication, the semantics of Python's
`list(dict.fromkeys(xs))` used in `evaluate_da_potential`: keep each
element's first occurrence, in order. -/
def dedupFirst {α : Type} [DecidableEq α] : List α → List α
  | [] => []
  | x :: xs => x :: dedupFirst (xs.filter (· ≠ x))
  termination_by l => l.length
  decreasing_by
    simpa using Nat.lt_succ_of_le (List.length_filter_le _ xs)

/-- Output record of `evaluate_da_potential`. -/
structure DaResult where
  is_likely_supportable : Bool
  key_issues : List String
  recommended_studies : List String
  red_flags : List String
  deriving Repr, DecidableEq

/-- The `key_issues` list accumulated by `evaluate_da_potential`
(`da_guidance.py` lines 31–67) before deduplication, in append order. -/
def rawKeyIssues (geometry_data : GeometryData) (c : Constraints)
    (slope_data : SlopeData) : List String :=
  (if c.bushfire_prone then ["Bushfire vegetation setback"] else []) ++
  (if c.flood_prone then ["Flood planning and stormwater management"] else []) ++
  (if c.heritage_item then ["Heritage significance - strict controls apply"]
   else if c.heritage_conservation_area then
     ["Heritage conservation area - streetscape compatibility"]
   else []) ++
  (if slope_data.mean_gradient_percent > 15 then ["Slope and stormwater"]
   else []) ++
  (if c.geotech_landslip_risk = "High" ∨ c.geotech_landslip_risk = "Very High"
   then ["Geotechnical stability"] else []) ++
  (if geometry_data.regularity_index < 3/4 then
    ["Irregular lot shape - design challenges"] else []) ++
  ["Streetscape bulk & scale"] ++
  (if geometry_data.is_corner_lot then
    ["Corner lot - secondary street setbacks"] else [])

/-- `evaluate_da_potential` (`da_guidance.py` lines 8–93): key issues
deduplicated (first occurrence kept) and capped to 5; supportability
falsified by a heritage item or "Very High" landslip risk; the same two
conditions populate `red_flags`; studies passed through. -/
def evaluate_da_potential (_parcel_data : ParcelData)
    (geometry_data : GeometryData) (c : Constraints)
    (slope_data : SlopeData) (recommended_studies : List String) : DaResult :=
  let key_issues := rawKeyIssues geometry_data c slope_data
  let is_likely_supportable := true
  let is_likely_supportable :=
    if c.heritage_item then false else is_likely_supportable
  let is_likely_supportable :=
    if c.geotech_landslip_risk = "Very High" then false
    else is_likely_supportable
  let red_flags : List String :=
    (if c.heritage_item then ["Heritage Item"] else []) ++
    (if c.geotech_landslip_risk = "Very High" then
      ["Very High Landslip Risk"] else [])
  let key_issues := dedupFirst key_issues
  { is_likely_supportable := is_likely_supportable
    key_issues := key_issues.take 5
    recommended_studies := recommended_studies
    red_flags := red_flags }

/-- Typology allow-list record (`typologies` dictionary produced by
`determine_allowed_typologies`). -/
structure Typologies where
  dual_occupancy : Bool
  terrace_row : Bool
  manor_house : Bool
  multi_dwelling : Bool
  apartments : Bool
  deriving Repr, DecidableEq

/-- `determine_allowed_typologies` (`lep_rules.py` lines 81–132):
per-typology zone/geometry gates, all flags starting false so an
unrecognised zone code yields the all-false record. -/
def determine_allowed_typologies (settings : Settings) (zone_code : String)
    (parcel_area_sqm : ℚ) (geometry_data : GeometryData) : Typologies :=
  let frontage_m := geometry_data.frontage_m
  let dual_occupancy :=
    if zone_code = "R1" ∨ zone_code = "R2" ∨ zone_code = "R3" then
      if parcel_area_sqm ≥ settings.MIN_LOT_AREA_DUAL_OCC_SQM ∧
          frontage_m ≥ settings.MIN_FRONTAGE_DUAL_OCC_M then true
      else false
    else false
  let terrace_row := if zone_code = "R1" ∨ zone_code = "R3" then true else false
  let manor_house :=
    if zone_code = "R1" ∨ zone_code = "R2" then
      if parcel_area_sqm ≥ 600 then true else false
    else false
  let multi_dwelling :=
    if zone_code = "R1" ∨ zone_code = "R3" then true else false
  let apartments := if zone_code = "R3" ∨ zone_code = "R4" then true else false
  { dual_occupancy := dual_occupancy
    terrace_row := terrace_row
    manor_house := manor_house
    multi_dwelling := multi_dwelling
    apartments := apartments }

/-- Envelope record consumed by the yield engine (`envelope_data`
dictionary); only the fields `compute_yield` reads. -/
structure EnvelopeData where
  max_gfa_sqm : ℚ
  fsr_control : ℚ
  max_height_m : ℚ
  deriving Repr, DecidableEq

/-- Output record of `compute_yield` (the `notes` string is produced by a
separate narrative helper and is not carried). -/
structure YieldResult where
  dual_occ_feasible : Bool
  terrace_row_feasible : Bool
  manor_house_feasible : Bool
  multi_dwelling_feasible : Bool
  indicative_dwellings_count : ℤ
  primary_typology : String
  deriving Repr, DecidableEq

/-- `compute_yield` (`yield_engine.py` lines 9–104): per-typology
feasibility with heritage exclusion and FSR thresholds, then the
priority-ordered selection of indicative dwelling count and primary
typology. -/
def compute_yield (settings : Settings) (parcel_data : ParcelData)
    (geometry_data : GeometryData) (envelope_data : EnvelopeData)
    (typologies : Typologies) (c : Constraints) : YieldResult :=
  let parcel_area := parcel_data.area_sqm
  let frontage := geometry_data.frontage_m
  let max_gfa_sqm := envelope_data.max_gfa_sqm
  let fsr_control := envelope_data.fsr_control
  let max_height_m := envelope_data.max_height_m
  let dual_occ_feasible : Bool :=
    typologies.dual_occupancy && !c.heritage_item &&
    decide (parcel_area ≥ settings.MIN_LOT_AREA_DUAL_OCC_SQM) &&
    decide (frontage ≥ settings.MIN_FRONTAGE_DUAL_OCC_M)
  let terrace_row_feasible : Bool :=
    typologies.terrace_row &&
    decide (fsr_control ≥ settings.MIN_FSR_TERRACE) && !c.heritage_item
  let manor_house_feasible : Bool :=
    typologies.manor_house && decide (max_height_m ≤ 17/2) &&
    decide (parcel_area ≥ 600) && !c.heritage_item
  let multi_dwelling_feasible : Bool :=
    typologies.multi_dwelling &&
    decide (fsr_control ≥ settings.MIN_FSR_MULTI_DWELLING) &&
    !c.heritage_item
  let selection : ℤ × String :=
    if dual_occ_feasible then (2, "Dual Occupancy")
    else if manor_house_feasible then (3, "Manor House")
    else if multi_dwelling_feasible then
      let estimated_units :=
        ⌊max_gfa_sqm / settings.AVERAGE_UNIT_SIZE_TOWNHOUSE_SQM⌋
      (max 2 (min 6 estimated_units), "Multi-Dwelling Housing")
    else if terrace_row_feasible then
      let estimated_units :=
        ⌊max_gfa_sqm / settings.AVERAGE_UNIT_SIZE_TOWNHOUSE_SQM⌋
      (max 3 (min 6 estimated_units), "Terrace/Row Housing")
    else (1, "Single Dwelling")
  { dual_occ_feasible := dual_occ_feasible
    terrace_row_feasible := terrace_row_feasible
    manor_house_feasible := manor_house_feasible
    multi_dwelling_feasible := multi_dwelling_feasible
    indicative_dwellings_count := selection.1
    primary_typology := selection.2 }

/-- Rounding to three decimal places, the `round(x, 3)` of
`compute_regularity_index` (`polygon_ops.py` line 78), embedded with
`round : ℝ → ℤ`; the Python builtin rounds ties to even while `round`
rounds them up — every input considered below is tie-free, where the two
conventions agree. -/
noncomputable def roundTo3 (x : ℝ) : ℝ := ((round (1000 * x) : ℤ) : ℝ) / 1000

/-- `compute_regularity_index` (`polygon_ops.py` lines 37–79), as a
function of the polygon's area and perimeter (the only attributes the
source reads): 0 for zero perimeter, otherwise `4·sqrt(area)/perimeter`
clamped to [0,1] and rounded to 3 decimals. -/
noncomputable def compute_regularity_index (area perimeter : ℝ) : ℝ :=
  if perimeter = 0 then 0
  else
    let p_min := 4 * Real.sqrt area
    let regularity_raw := p_min / perimeter
    let regularity := max 0 (min 1 regularity_raw)
    roundTo3 regularity

/-- Normalised user input record produced by `normalise_input`
(`runner.py` lines 150–163); only the fields `resolve_parcel` could
inspect (it inspects none). -/
structure InputData where
  query_type : String
  raw_input : String
  deriving Repr, DecidableEq

/-- Parcel attribute record returned by `resolve_parcel`
(`runner.py` lines 168–177). -/
structure ParcelRecord where
  lot_number : String
  plan_number : String
  plan_type : String
  rpd : String
  parcel_type : String
  area_sqm : ℚ
  source_dataset : String
  spatial_accuracy_code : String
  deriving Repr, DecidableEq

/-- The fixed mock parcel attributes of `resolve_parcel`. -/
def mock_parcel_record : ParcelRecord :=
  { lot_number := "2"
    plan_number := "228402"
    plan_type := "DP"
    rpd := "Lot 2 DP228402"
    parcel_type := "Lot"
    area_sqm := 607
    source_dataset := "NSW_DCDB_2025Q1"
    spatial_accuracy_code := "SC2" }

/-- The fixed mock polygon of `resolve_parcel` (`runner.py` lines
180–186), EPSG:7856 coordinates. -/
def mock_polygon : List (ℚ × ℚ) :=
  [(360400, 6259000), (360415, 6259000), (360415, 6258960),
   (360400, 6258960), (360400, 6259000)]

/-- `resolve_parcel` (`runner.py` lines 166–188): ignores its input
entirely and returns the fixed mock parcel record and polygon; it has no
validation and no failure path. -/
def resolve_parcel (_input_data : InputData) : ParcelRecord × List (ℚ × ℚ) :=
  (mock_parcel_record, mock_polygon)

/-! ### Helper lemmas -/

theorem dedupFirst_sublist {α : Type} [DecidableEq α] (l : List α) :
    (dedupFirst l).Sublist l := by
  induction l using dedupFirst.induct with
  | case1 => simp [dedupFirst]
  | case2 x xs ih =>
    rw [dedupFirst]
    exact (ih.trans (List.filter_sublist xs)).cons₂ x

theorem dedupFirst_nodup {α : Type} [DecidableEq α] (l : List α) :
    (dedupFirst l).Nodup := by
  induction l using dedupFirst.induct with
  | case1 => simp [dedupFirst]
  | case2 x xs ih =>
    rw [dedupFirst, List.nodup_cons]
    refine ⟨fun hx => ?_, ih⟩
    have hmem := (dedupFirst_sublist (xs.filter (· ≠ x))).mem hx
    simpa using (List.of_mem_filter hmem)

theorem dedupFirst_mem {α : Type} [DecidableEq α] (l : List α) (a : α)
    (ha : a ∈ l) : a ∈ dedupFirst l := by
  induction l using dedupFirst.induct with
  | case1 => cases ha
  | case2 x xs ih =>
    rw [dedupFirst]
    rcases List.mem_cons.mp ha with h | h
    · exact h ▸ List.mem_cons_self _ _
    · by_cases hax : a = x
      · exact hax ▸ List.mem_cons_self _ _
      · exact List.mem_cons_of_mem _ (ih (List.mem_filter.mpr ⟨h, by simpa using hax⟩))

/-! ### Claims -/

/-- C1: the score→rating mapping is the same function in the constraint
severity scorer and the risk rating aggregator, and for every score `s`
it yields "None" iff `s = 0`, "Low" iff `1 ≤ s ≤ 3`, "Medium" iff
`4 ≤ s ≤ 7`, "High" iff `8 ≤ s ≤ 12`, "Red-Flag" iff `s > 12`; in
particular `compute_constraint_severity`'s rating agrees with
`compute_risk_rating`'s mapping at every score. -/
theorem rating_thresholds_agree (s : ℕ) :
    constraintRatingOfScore s = riskRatingOfScore s ∧
    (constraintRatingOfScore s = "None" ↔ s = 0) ∧
    (constraintRatingOfScore s = "Low" ↔ 1 ≤ s ∧ s ≤ 3) ∧
    (constraintRatingOfScore s = "Medium" ↔ 4 ≤ s ∧ s ≤ 7) ∧
    (constraintRatingOfScore s = "High" ↔ 8 ≤ s ∧ s ≤ 12) ∧
    (constraintRatingOfScore s = "Red-Flag" ↔ 12 < s) ∧
    (∀ settings c, (compute_constraint_severity settings c).rating =
      riskRatingOfScore (compute_constraint_severity settings c).total_score) := by
  refine ⟨rfl, ?_, ?_, ?_, ?_, ?_, fun settings c => rfl⟩ <;>
    · unfold constraintRatingOfScore
      split_ifs <;> simp_all <;> omega

/-- C4: the overall risk score is the constraint total plus a slope
penalty (3 above 25 %, 2 above 15 %, else 0) plus a regularity penalty
(1 below 0.75), and `compute_risk_rating` is this total mapped through
the 5-tier threshold table. -/
theorem risk_rating_is_sum_of_penalties (sev : SeverityResult)
    (slope : SlopeData) (geom : GeometryData) :
    compute_risk_rating sev slope geom =
      riskRatingOfScore (sev.total_score +
        (if slope.mean_gradient_percent > 25 then 3
         else if slope.mean_gradient_percent > 15 then 2 else 0) +
        (if geom.regularity_index < 3/4 then 1 else 0)) := by
  show riskRatingOfScore _ = _
  rw [← Nat.add_assoc]

theorem ite_append_distrib {α : Type} (b : Prop) [Decidable b]
    (l₁ l₂ m : List α) :
    (if b then l₁ else l₂) ++ m = if b then l₁ ++ m else l₂ ++ m := by
  split_ifs <;> rfl

/-- The fixed check order of `evaluate_cdc_potential`, used to state the
order-stability of its blocking list. -/
def cdcCheckOrder : List BlockReason :=
  [.bushfire, .flood, .heritageItem, .heritageConservationArea,
   .foreshoreBuildingLine, .riparianBuffer, .insufficientArea,
   .insufficientFrontage, .slopeTooSteep]

/-- The condition under which each blocking reason fires in
`evaluate_cdc_potential`, used to state that the blocking list is exactly
the fired reasons in check order. -/
def blockCondition (settings : Settings) (parcel_data : ParcelData)
    (geometry_data : GeometryData) (c : Constraints)
    (slope_data : SlopeData) : BlockReason → Bool
  | .bushfire => c.bushfire_prone
  | .flood => c.flood_prone
  | .heritageItem => c.heritage_item
  | .heritageConservationArea => c.heritage_conservation_area
  | .foreshoreBuildingLine => c.foreshore_building_line
  | .riparianBuffer => c.riparian_buffer
  | .insufficientArea =>
    decide (parcel_data.area_sqm < settings.MIN_LOT_AREA_DUAL_OCC_SQM)
  | .insufficientFrontage =>
    decide (geometry_data.frontage_m < settings.MIN_FRONTAGE_DUAL_OCC_M)
  | .slopeTooSteep =>
    decide (slope_data.mean_gradient_percent > settings.CDC_MAX_SLOPE_PERCENT)

/-- C2: `evaluate_cdc_potential` is eligible iff its blocking list is
empty, and the blocking list is exactly the fired checks in the fixed
check order (bushfire, flood, heritage item, heritage conservation area,
foreshore building line, riparian buffer, area, frontage, slope). -/
theorem cdc_blocking_list_characterisation (settings : Settings)
    (parcel_data : ParcelData) (geometry_data : GeometryData)
    (c : Constraints) (slope_data : SlopeData) :
    ((evaluate_cdc_potential settings parcel_data geometry_data c
        slope_data).is_potentially_cdc_compliant = true ↔
      (evaluate_cdc_potential settings parcel_data geometry_data c
        slope_data).blocking_constraints = []) ∧
    (evaluate_cdc_potential settings parcel_data geometry_data c
        slope_data).blocking_constraints =
      cdcCheckOrder.filter
        (blockCondition settings parcel_data geometry_data c slope_data) := by
  constructor
  · simp [evaluate_cdc_potential, List.length_eq_zero]
  · simp only [evaluate_cdc_potential, cdcCheckOrder, List.filter_cons,
      List.filter_nil, blockCondition, decide_eq_true_eq, List.append_assoc,
      ite_append_distrib, List.singleton_append, List.cons_append,
      List.nil_append, List.append_nil]

/-- A constraint record with every flag clear, used by the concrete
witness inputs. -/
def noConstraints : Constraints :=
  { bushfire_prone := false
    bushfire_category := ""
    flood_prone := false
    acid_sulfate_soil_class := "None"
    heritage_item := false
    heritage_conservation_area := false
    foreshore_building_line := false
    riparian_buffer := false
    biodiversity := false
    geotech_landslip_risk := "Low"
    other_overlays := [] }

/-- A constraint record with only the heritage item flag set, used by the
concrete witness inputs. -/
def heritageConstraints : Constraints :=
  { noConstraints with heritage_item := true }

/-- A constraint record with a heritage item and "Very High" landslip
risk, used by the concrete witness inputs. -/
def worstConstraints : Constraints :=
  { noConstraints with
      heritage_item := true
      geotech_landslip_risk := "Very High" }

/-- C3: in `compute_yield`, the first feasible typology in the priority
order dual occupancy > manor house > multi dwelling > terrace row >
single dwelling fixes both the primary typology label and the indicative
dwelling count (2, 3, clamp(⌊gfa/avg⌋,2,6), clamp(⌊gfa/avg⌋,3,6), 1); in
particular dual occupancy wins whenever it and multi dwelling are both
feasible. -/
theorem yield_priority_order (settings : Settings) (p : ParcelData)
    (g : GeometryData) (e : EnvelopeData) (t : Typologies)
    (c : Constraints) :
    ((compute_yield settings p g e t c).dual_occ_feasible = true →
      (compute_yield settings p g e t c).primary_typology =
        "Dual Occupancy" ∧
      (compute_yield settings p g e t c).indicative_dwellings_count = 2) ∧
    ((compute_yield settings p g e t c).dual_occ_feasible = false →
      (compute_yield settings p g e t c).manor_house_feasible = true →
      (compute_yield settings p g e t c).primary_typology = "Manor House" ∧
      (compute_yield settings p g e t c).indicative_dwellings_count = 3) ∧
    ((compute_yield settings p g e t c).dual_occ_feasible = false →
      (compute_yield settings p g e t c).manor_house_feasible = false →
      (compute_yield settings p g e t c).multi_dwelling_feasible = true →
      (compute_yield settings p g e t c).primary_typology =
        "Multi-Dwelling Housing" ∧
      (compute_yield settings p g e t c).indicative_dwellings_count =
        max 2 (min 6
          ⌊e.max_gfa_sqm / settings.AVERAGE_UNIT_SIZE_TOWNHOUSE_SQM⌋)) ∧
    ((compute_yield settings p g e t c).dual_occ_feasible = false →
      (compute_yield settings p g e t c).manor_house_feasible = false →
      (compute_yield settings p g e t c).multi_dwelling_feasible = false →
      (compute_yield settings p g e t c).terrace_row_feasible = true →
      (compute_yield settings p g e t c).primary_typology =
        "Terrace/Row Housing" ∧
      (compute_yield settings p g e t c).indicative_dwellings_count =
        max 3 (min 6
          ⌊e.max_gfa_sqm / settings.AVERAGE_UNIT_SIZE_TOWNHOUSE_SQM⌋)) ∧
    ((compute_yield settings p g e t c).dual_occ_feasible = false →
      (compute_yield settings p g e t c).manor_house_feasible = false →
      (compute_yield settings p g e t c).multi_dwelling_feasible = false →
      (compute_yield settings p g e t c).terrace_row_feasible = false →
      (compute_yield settings p g e t c).primary_typology =
        "Single Dwelling" ∧
      (compute_yield settings p g e t c).indicative_dwellings_count = 1) ∧
    ((compute_yield settings p g e t c).dual_occ_feasible = true →
      (compute_yield settings p g e t c).multi_dwelling_feasible = true →
      (compute_yield settings p g e t c).primary_typology =
        "Dual Occupancy") := by
  simp only [compute_yield]
  split_ifs <;> simp_all

/-- Witness for C3 at a concrete parcel where dual occupancy and multi
dwelling are simultaneously feasible. -/
theorem yield_priority_order_witness :
    (compute_yield defaultSettings ⟨700⟩ ⟨20, 1, false⟩ ⟨420, 1, 8⟩
        ⟨true, true, true, true, true⟩ noConstraints).dual_occ_feasible =
      true ∧
    (compute_yield defaultSettings ⟨700⟩ ⟨20, 1, false⟩ ⟨420, 1, 8⟩
        ⟨true, true, true, true, true⟩ noConstraints).primary_typology =
      "Dual Occupancy" ∧
    (compute_yield defaultSettings ⟨700⟩ ⟨20, 1, false⟩ ⟨420, 1, 8⟩
        ⟨true, true, true, true, true⟩
        noConstraints).indicative_dwellings_count = 2 :=
  ⟨by decide,
   ((yield_priority_order defaultSettings ⟨700⟩ ⟨20, 1, false⟩ ⟨420, 1, 8⟩
      ⟨true, true, true, true, true⟩ noConstraints).1 (by decide)).1,
   ((yield_priority_order defaultSettings ⟨700⟩ ⟨20, 1, false⟩ ⟨420, 1, 8⟩
      ⟨true, true, true, true, true⟩ noConstraints).1 (by decide)).2⟩

/-- C5: `evaluate_da_potential` is unsupportable exactly for a heritage
item or "Very High" landslip risk, each of which contributes its red
flag; the exposed key-issue list is the first-occurrence deduplication of
the accumulated issues capped at 5, hence duplicate-free, order
preserving, and of length at most 5. -/
theorem da_supportability_and_key_issues (p : ParcelData)
    (g : GeometryData) (c : Constraints) (s : SlopeData)
    (studies : List String) :
    ((evaluate_da_potential p g c s studies).is_likely_supportable = false ↔
      (c.heritage_item = true ∨ c.geotech_landslip_risk = "Very High")) ∧
    (c.heritage_item = true →
      "Heritage Item" ∈ (evaluate_da_potential p g c s studies).red_flags) ∧
    (c.geotech_landslip_risk = "Very High" →
      "Very High Landslip Risk" ∈
        (evaluate_da_potential p g c s studies).red_flags) ∧
    (evaluate_da_potential p g c s studies).key_issues =
      (dedupFirst (rawKeyIssues g c s)).take 5 ∧
    (evaluate_da_potential p g c s studies).key_issues.Nodup ∧
    (evaluate_da_potential p g c s studies).key_issues.Sublist
      (rawKeyIssues g c s) ∧
    (evaluate_da_potential p g c s studies).key_issues.length ≤ 5 := by
  refine ⟨?_, ?_, ?_, rfl,
    List.Sublist.nodup (List.take_sublist _ _) (dedupFirst_nodup _),
    (List.take_sublist _ _).trans (dedupFirst_sublist _),
    List.length_take_le _ _⟩
  · simp only [evaluate_da_potential]
    split_ifs <;> simp_all
  · intro h
    simp [evaluate_da_potential, h]
  · intro h
    simp [evaluate_da_potential, h]

/-- Witness for C5 at a parcel with a heritage item and "Very High"
landslip risk. -/
theorem da_supportability_witness :
    worstConstraints.heritage_item = true ∧
    worstConstraints.geotech_landslip_risk = "Very High" ∧
    "Heritage Item" ∈
      (evaluate_da_potential ⟨600⟩ ⟨15, 1, false⟩ worstConstraints ⟨0, true⟩
        []).red_flags ∧
    "Very High Landslip Risk" ∈
      (evaluate_da_potential ⟨600⟩ ⟨15, 1, false⟩ worstConstraints ⟨0, true⟩
        []).red_flags :=
  ⟨rfl, rfl,
   (da_supportability_and_key_issues ⟨600⟩ ⟨15, 1, false⟩ worstConstraints
      ⟨0, true⟩ []).2.1 rfl,
   (da_supportability_and_key_issues ⟨600⟩ ⟨15, 1, false⟩ worstConstraints
      ⟨0, true⟩ []).2.2.1 rfl⟩

/-- C10: in `evaluate_da_potential`, the red-flag list is empty exactly
when the application is likely supportable — both are computed from the
same two conditions and can never disagree. -/
theorem da_red_flags_empty_iff_supportable (p : ParcelData)
    (g : GeometryData) (c : Constraints) (s : SlopeData)
    (studies : List String) :
    (evaluate_da_potential p g c s studies).red_flags = [] ↔
      (evaluate_da_potential p g c s studies).is_likely_supportable =
        true := by
  simp only [evaluate_da_potential]
  split_ifs <;> simp_all

/-- C6 as stated is false: with the zone/area gate satisfied
(zone "R1", area 700 ≥ 600) and an admissible envelope, setting only
`heritage_item` flips `compute_yield`'s `manor_house_feasible` flag, so
the flag is not determined solely by the zone/area gate. -/
theorem manor_house_affected_by_heritage :
    (determine_allowed_typologies defaultSettings "R1" 700
      ⟨20, 1, false⟩).manor_house = true ∧
    (compute_yield defaultSettings ⟨700⟩ ⟨20, 1, false⟩ ⟨420, 1, 8⟩
        ⟨false, false, true, false, false⟩
        heritageConstraints).manor_house_feasible = false ∧
    (compute_yield defaultSettings ⟨700⟩ ⟨20, 1, false⟩ ⟨420, 1, 8⟩
        ⟨false, false, true, false, false⟩
        noConstraints).manor_house_feasible = true := by
  refine ⟨by decide, ?_, ?_⟩
  · simp only [compute_yield]
    norm_num [heritageConstraints, noConstraints]
  · simp only [compute_yield]
    norm_num [noConstraints]

/-- C6 amended: in the yield estimator the heritage-item exclusion
applies to manor house as well — `manor_house_feasible` holds iff the
allow-list gate, the 8.5 m height cap and the 600 m² area floor hold and
there is no heritage item — while in `determine_allowed_typologies` the
manor-house gate itself is exactly zone ∈ {R1, R2} and area ≥ 600. -/
theorem manor_house_feasibility_characterisation (settings : Settings)
    (p : ParcelData) (g : GeometryData) (e : EnvelopeData) (t : Typologies)
    (c : Constraints) (zone_code : String) (area : ℚ)
    (g2 : GeometryData) :
    ((compute_yield settings p g e t c).manor_house_feasible = true ↔
      (t.manor_house = true ∧ e.max_height_m ≤ 17/2 ∧ p.area_sqm ≥ 600 ∧
        c.heritage_item = false)) ∧
    (c.heritage_item = true →
      (compute_yield settings p g e t c).manor_house_feasible = false) ∧
    ((determine_allowed_typologies settings zone_code area g2).manor_house =
        true ↔
      ((zone_code = "R1" ∨ zone_code = "R2") ∧ area ≥ 600)) := by
  refine ⟨?_, ?_, ?_⟩
  · simp only [compute_yield]
    simp [Bool.and_eq_true, decide_eq_true_eq, and_assoc,
      Bool.not_eq_true']
  · intro h
    simp only [compute_yield]
    simp [h]
  · simp only [determine_allowed_typologies]
    split_ifs <;> simp_all

/-- Witness for C6's amended claim at a concrete heritage parcel. -/
theorem manor_house_characterisation_witness :
    heritageConstraints.heritage_item = true ∧
    (compute_yield defaultSettings ⟨700⟩ ⟨20, 1, false⟩ ⟨420, 1, 8⟩
        ⟨false, false, true, false, false⟩
        heritageConstraints).manor_house_feasible = false :=
  ⟨rfl,
   (manor_house_feasibility_characterisation defaultSettings ⟨700⟩
      ⟨20, 1, false⟩ ⟨420, 1, 8⟩ ⟨false, false, true, false, false⟩
      heritageConstraints "R1" 700 ⟨20, 1, false⟩).2.1 rfl⟩

/-- C7 as stated is false: for area 1 and perimeter 6 the code returns
the 3-decimal rounding 0.667, which differs from
clamp(4·√area/perimeter, 0, 1) = 2/3. -/
theorem regularity_not_exactly_clamp :
    compute_regularity_index 1 6 = 667/1000 ∧
    max 0 (min 1 (4 * Real.sqrt 1 / 6)) = 2/3 ∧
    (667/1000 : ℝ) ≠ 2/3 := by
  have hs : Real.sqrt 1 = 1 := Real.sqrt_one
  have hclamp : max (0:ℝ) (min 1 (4 * Real.sqrt 1 / 6)) = 2/3 := by
    rw [hs]; norm_num
  refine ⟨?_, hclamp, by norm_num⟩
  have h6 : (6:ℝ) ≠ 0 := by norm_num
  have hbody : compute_regularity_index 1 6 =
      roundTo3 (max 0 (min 1 (4 * Real.sqrt 1 / 6))) := by
    simp [compute_regularity_index]
  rw [hbody, hclamp, roundTo3]
  have hround : round ((1000:ℝ) * (2/3)) = 667 := by
    rw [round_eq]
    norm_num
  rw [hround]
  norm_num

/-- C7 amended: `compute_regularity_index` equals
clamp(4·√area/perimeter, 0, 1) rounded to three decimals — hence within
1/2000 of the clamp — always lies in [0, 1], and returns 0 for a zero
perimeter; it is total and never divides by zero. -/
theorem regularity_total_bounded_near_clamp (area perimeter : ℝ) :
    compute_regularity_index area perimeter =
      (if perimeter = 0 then 0
       else roundTo3 (max 0 (min 1 (4 * Real.sqrt area / perimeter)))) ∧
    0 ≤ compute_regularity_index area perimeter ∧
    compute_regularity_index area perimeter ≤ 1 ∧
    |compute_regularity_index area perimeter -
      (if perimeter = 0 then 0
       else max 0 (min 1 (4 * Real.sqrt area / perimeter)))| ≤ 1/2000 := by
  by_cases hp : perimeter = 0
  · refine ⟨by simp [compute_regularity_index, hp], ?_, ?_, ?_⟩ <;>
      simp [compute_regularity_index, hp]
  · set y : ℝ := max 0 (min 1 (4 * Real.sqrt area / perimeter)) with hy
    have hy0 : 0 ≤ y := le_max_left 0 _
    have hy1 : y ≤ 1 := by
      apply max_le (by norm_num)
      exact min_le_left 1 _
    have hval : compute_regularity_index area perimeter = roundTo3 y := by
      rw [hy]
      simp [compute_regularity_index, hp]
    have hnear : |roundTo3 y - y| ≤ 1/2000 := by
      rw [roundTo3]
      have h2 : |(round (1000 * y) : ℝ) - 1000 * y| ≤ 1/2 := by
        rw [abs_sub_comm]
        exact abs_sub_round (1000 * y)
      have h3 : (round (1000 * y) : ℝ) / 1000 - y =
          ((round (1000 * y) : ℝ) - 1000 * y) / 1000 := by ring
      rw [h3, abs_div]
      rw [abs_of_pos (by norm_num : (0:ℝ) < 1000)]
      linarith
    have hlow : 0 ≤ roundTo3 y := by
      rw [roundTo3]
      apply div_nonneg _ (by norm_num)
      have hn : (0:ℤ) ≤ round (1000 * y) := by
        rw [round_eq]
        apply Int.le_floor.mpr
        push_cast
        nlinarith
      exact_mod_cast hn
    have hhigh : roundTo3 y ≤ 1 := by
      rw [roundTo3]
      rw [div_le_one (by norm_num : (0:ℝ) < 1000)]
      have hn : round ((1000:ℝ) * y) ≤ 1000 := by
        rw [round_eq]
        have hlt : (1000:ℝ) * y + 1/2 ≤ 2001/2 := by nlinarith
        have hfl : ⌊(1000:ℝ) * y + 1/2⌋ ≤ ⌊(2001:ℝ)/2⌋ := Int.floor_mono hlt
        have hv : ⌊(2001:ℝ)/2⌋ = 1000 := by norm_num
        omega
      exact_mod_cast hn
    refine ⟨?_, ?_, ?_, ?_⟩
    · rw [hval, if_neg hp]
    · rw [hval]; exact hlow
    · rw [hval]; exact hhigh
    · rw [hval, if_neg hp]; exact hnear

/-- C8: for any zone code outside {R1, R2, R3, R4} every typology gate of
`determine_allowed_typologies` is false — a conservative default, not an
error. -/
theorem unknown_zone_all_typologies_false (settings : Settings)
    (zone_code : String) (area : ℚ) (g : GeometryData)
    (h : ¬(zone_code = "R1" ∨ zone_code = "R2" ∨ zone_code = "R3" ∨
      zone_code = "R4")) :
    determine_allowed_typologies settings zone_code area g =
      { dual_occupancy := false
        terrace_row := false
        manor_house := false
        multi_dwelling := false
        apartments := false } := by
  push_neg at h
  obtain ⟨h1, h2, h3, h4⟩ := h
  simp [determine_allowed_typologies, h1, h2, h3, h4]

/-- Witness for C8 at the unrecognised zone code "W2". -/
theorem unknown_zone_witness :
    ¬("W2" = "R1" ∨ "W2" = "R2" ∨ "W2" = "R3" ∨ "W2" = "R4") ∧
    determine_allowed_typologies defaultSettings "W2" 600 ⟨15, 1, false⟩ =
      { dual_occupancy := false
        terrace_row := false
        manor_house := false
        multi_dwelling := false
        apartments := false } :=
  ⟨by decide,
   unknown_zone_all_typologies_false defaultSettings "W2" 600 ⟨15, 1, false⟩
     (by decide)⟩

/-- C9: `resolve_parcel` ignores its input entirely — every request,
including one describing malformed geometry, resolves to the same fixed
mock parcel and polygon with no error path, so the pipeline substitutes
default geometry instead of failing fast. -/
theorem resolve_parcel_always_mock (input_data : InputData) :
    resolve_parcel input_data = (mock_parcel_record, mock_polygon) := rfl

end PropertyDev
